import Mathlib

/-!
Verification of the shoob.gg card-scraper repository.

The repository's entry point is `main.py` (argument handling, confirmation
prompt, summary display, exception dispatch and exit codes).  The scraping
orchestrator itself (`ShoobCardScraper.scrape_all_pages`), the incremental
store and the summary aggregator live in `scraper.py`, which is not part of
the source tree available here; those parts are modelled from the
specification (each such definition says so in its doc comment).  Everything
modelled from `main.py` follows the source directly.
-/

/-- Card record as described by the data model: name, tier and series. -/
structure Card where
  name : String
  tier : String
  series : String
deriving DecidableEq

/-- Result of one Page Fetcher invocation: a list of raw card records,
a transient per-page error, or a fatal error. -/
inductive FetchResult where
  | cards (cs : List Card)
  | transientError
  | fatalError
deriving DecidableEq

/-- Modelled from the spec: the Incremental Store persists, per completed
page number, the list of cards appended for that page, in append order.
The on-disk layout is unconstrained by the spec, so the store is modelled
as the sequence of (page, cards) records it holds. -/
structure Store where
  pages : List (Nat × List Card)
deriving DecidableEq

/-- Modelled from the spec: `has_page(n)` is true iff page n's cards were
already persisted. -/
def Store.has_page (s : Store) (n : Nat) : Bool :=
  s.pages.any (fun p => p.1 == n)

/-- Modelled from the spec: `append_page(n, cards)` durably persists the
cards and marks n complete. -/
def Store.append_page (s : Store) (n : Nat) (cs : List Card) : Store :=
  ⟨s.pages ++ [(n, cs)]⟩

/-- Scrape Summary record: output location, total card count, completed
pages, sample cards and file size. -/
structure Summary where
  output_file : String
  total_cards : Nat
  scraped_pages : List Nat
  sample_cards : List Card
  file_size_mb : Nat
deriving DecidableEq

/-- Modelled from the spec: `summarize()` reads the persisted state without
mutating it, reporting the total card count, the set of completed pages and
the persisted cards (the display bounds the sample itself).  The store model
has no on-disk layout, so the file size is reported as 0 and the output
location as the empty string. -/
def Store.summarize (s : Store) : Summary :=
  { output_file := "",
    total_cards := (s.pages.map (fun p => p.2.length)).sum,
    scraped_pages := s.pages.map (fun p => p.1),
    sample_cards := (s.pages.map (fun p => p.2)).flatten,
    file_size_mb := 0 }

/-- Orchestrator run states: `Idle/Running` during the loop, and the
terminal states `Completed`, `Cancelled` and `Failed`. -/
inductive RunState where
  | Running
  | Completed
  | Cancelled
  | Failed
deriving DecidableEq

/-- Observable resource events of a run: the browser-automation session is
acquired at run start and released at run end; each durable page write is
an append event. -/
inductive Event where
  | acquire
  | append (n : Nat) (cs : List Card)
  | release
deriving DecidableEq

/-- Accumulated state of the orchestrator loop: the store, the run
statistics counters, the pages visited and fetched (in order), the append
events emitted so far, the run state, and whether the run ended because an
empty page was treated as end-of-data. -/
structure LoopAcc where
  store : Store
  scraped : Nat
  skipped : Nat
  cards : Nat
  errors : Nat
  visited : List Nat
  fetched : List Nat
  events : List Event
  state : RunState
  endedByEmpty : Bool
deriving DecidableEq

/-- Initial loop accumulator over a given store. -/
def initAcc (st : Store) : LoopAcc :=
  { store := st, scraped := 0, skipped := 0, cards := 0, errors := 0,
    visited := [], fetched := [], events := [], state := RunState.Running,
    endedByEmpty := false }

/-- External behaviour a run is exposed to: what the Page Fetcher returns
for each page number, and whether the user interrupts before a given page
is processed. -/
structure Env where
  fetch : Nat → FetchResult
  interrupt : Nat → Bool

/-- Outcome of handling one page: either continue to the next page with an
updated accumulator, or stop the loop with a terminal accumulator. -/
inductive StepRes where
  | cont (a : LoopAcc)
  | stop (a : LoopAcc)

/-- Accumulator carried by a step outcome. -/
def StepRes.acc : StepRes → LoopAcc
  | StepRes.cont a => a
  | StepRes.stop a => a

/-- Modelled from the spec: the per-page transition of the Orchestrator
(spec section 4.2), for page n.  An interrupt yields Cancelled; with the
resume flag set, an already-persisted page is skipped without fetching;
otherwise the Page Fetcher is invoked: a non-empty result is appended and
counted, an empty result is end-of-data exactly when no end page was given
(`eg = false`) and otherwise counts as a scraped page, a transient error is
counted and the run continues, and a fatal error stops the run as Failed. -/
def pageStep (env : Env) (re eg : Bool) (n : Nat) (acc : LoopAcc) : StepRes :=
  if env.interrupt n then
    StepRes.stop { acc with state := RunState.Cancelled }
  else if re && acc.store.has_page n then
    StepRes.cont { acc with skipped := acc.skipped + 1, visited := acc.visited ++ [n] }
  else
    match env.fetch n with
    | FetchResult.cards cs =>
      if cs.isEmpty then
        if eg then
          StepRes.cont { acc with
            scraped := acc.scraped + 1,
            visited := acc.visited ++ [n], fetched := acc.fetched ++ [n] }
        else
          StepRes.stop { acc with
            state := RunState.Completed, endedByEmpty := true,
            visited := acc.visited ++ [n], fetched := acc.fetched ++ [n] }
      else
        StepRes.cont { acc with
          store := acc.store.append_page n cs,
          scraped := acc.scraped + 1,
          cards := acc.cards + cs.length,
          visited := acc.visited ++ [n], fetched := acc.fetched ++ [n],
          events := acc.events ++ [Event.append n cs] }
    | FetchResult.transientError =>
      StepRes.cont { acc with
        errors := acc.errors + 1,
        visited := acc.visited ++ [n], fetched := acc.fetched ++ [n] }
    | FetchResult.fatalError =>
      StepRes.stop { acc with
        state := RunState.Failed,
        visited := acc.visited ++ [n], fetched := acc.fetched ++ [n] }

/-- Modelled from the spec: the Orchestrator loop of `scrape_all_pages`
(not under src/), visiting page numbers in ascending order starting at `n`.
`fuel` is the number of pages remaining in the requested range (for an
explicit end page, its exact size; for the auto-detect mode, an arbitrary
bound on the pages a run can visit).  Exhausting the range completes the
run. -/
def scrapeLoop (env : Env) (re eg : Bool) : Nat → Nat → LoopAcc → LoopAcc
  | 0, _, acc => { acc with state := RunState.Completed }
  | Nat.succ fuel, n, acc =>
    match pageStep env re eg n acc with
    | StepRes.stop a => a
    | StepRes.cont a => scrapeLoop env re eg fuel (n + 1) a

/-- Modelled from the spec: the derived success-rate statistic, as a
percentage: pages_scraped / (pages_scraped + errors) when the denominator
is nonzero, else defined as 100. -/
def success_rate (scraped errors : Nat) : ℚ :=
  if scraped + errors = 0 then 100
  else 100 * (scraped : ℚ) / ((scraped : ℚ) + (errors : ℚ))

/-- Whitespace test used when stripping the prompt answer: the characters
Python's str.strip() removes, i.e. those whose str.isspace() is true —
tab through carriage return (0x09-0x0d, including vertical tab and form
feed), the file/group/record/unit separators (0x1c-0x1f), space, next line
(0x85), no-break space (0xa0), ogham space mark (0x1680), the en-quad
through hair-space block (0x2000-0x200a), line and paragraph separators
(0x2028, 0x2029), narrow no-break space (0x202f), medium mathematical
space (0x205f) and ideographic space (0x3000). -/
def isSpaceChar (c : Char) : Bool :=
  (0x09 ≤ c.toNat && c.toNat ≤ 0x0d) || c.toNat == 0x20 ||
  (0x1c ≤ c.toNat && c.toNat ≤ 0x1f) || c.toNat == 0x85 || c.toNat == 0xa0 ||
  c.toNat == 0x1680 || (0x2000 ≤ c.toNat && c.toNat ≤ 0x200a) ||
  c.toNat == 0x2028 || c.toNat == 0x2029 || c.toNat == 0x202f ||
  c.toNat == 0x205f || c.toNat == 0x3000

/-- Normalisation applied to the confirmation prompt answer in `main.py`,
line 190: strip surrounding whitespace and lowercase.  Case mapping uses
the library's ASCII `Char.toLower`; this agrees with Python's lower() on
every input whose lowercase form could equal y or yes, since the only
characters Python lowercases to the ASCII letters y, e, s are their ASCII
uppercase forms. -/
def normalizeResponse (s : String) : String :=
  String.mk
    (((s.data.dropWhile isSpaceChar).reverse.dropWhile isSpaceChar).reverse.map
      Char.toLower)

/-- The confirmation check of `main.py` lines 188-196: no answer (the user
interrupts at the prompt) or any answer other than y or yes after
normalisation declines; y or yes confirms. -/
def confirmedAnswer (inp : Option String) : Bool :=
  match inp with
  | none => false
  | some s => normalizeResponse s == "y" || normalizeResponse s == "yes"

/-- Separator line printed around the summary. -/
def sepLine : String := String.mk (List.replicate 60 '=')

/-- One sample-card line of `print_summary` in `main.py`, line 123. -/
def cardLine (c : Card) : String :=
  "   - " ++ c.name ++ " (Tier " ++ c.tier ++ ") from " ++ c.series

/-- Sample cards actually displayed by `print_summary` in `main.py`,
lines 120-123: nothing when there are none, else at most the first 3. -/
def displayedSamples (s : Summary) : List Card :=
  if s.sample_cards.isEmpty then [] else s.sample_cards.take 3

/-- Lines printed by `print_summary` in `main.py`, lines 109-128: header,
output file, total count, the sorted completed pages when nonempty, at most
the first three sample cards when any exist, and the file size when
nonzero. -/
def print_summary (s : Summary) : List String :=
  [sepLine, "SCRAPED DATA SUMMARY", sepLine,
   "Output file: " ++ s.output_file,
   "Total cards: " ++ toString s.total_cards]
  ++ (if s.scraped_pages.isEmpty then []
      else ["Pages scraped: " ++ toString (s.scraped_pages.mergeSort (fun a b => a ≤ b))])
  ++ (if s.sample_cards.isEmpty then []
      else "Sample cards:" :: (displayedSamples s).map cardLine)
  ++ (if s.file_size_mb = 0 then []
      else ["File size: " ++ toString s.file_size_mb ++ " MB"])
  ++ [sepLine]

/-- Outcome of constructing the scraper in `main.py` line 146: success, a
missing-configuration failure (FileNotFoundError), or any other error. -/
inductive InitResult where
  | ok
  | fileNotFound (msg : String)
  | otherError (msg : String)

/-- Whether scraper construction succeeded. -/
def InitResult.isOk : InitResult → Bool
  | InitResult.ok => true
  | _ => false

/-- Ambient configuration read by the scraper: default start page, optional
default end page, output folder. -/
structure Config where
  start_page : Nat
  end_page : Option Nat
  output_folder : String

/-- Command-line arguments of `main.py`: optional start and end page
overrides and the resume, summary and verbose flags. -/
structure Args where
  start : Option Nat
  endPage : Option Nat
  resume : Bool
  summary : Bool
  verbose : Bool

/-- Everything outside `main` that a run can observe: the scraper
construction outcome, the configuration, the persisted store, the user's
prompt answer (none models an interrupt at the prompt), the Page Fetcher,
the interruption schedule, and the page bound for auto-detect mode. -/
structure MainEnv where
  initResult : InitResult
  config : Config
  store : Store
  userInput : Option String
  fetch : Nat → FetchResult
  interrupt : Nat → Bool
  autoFuel : Nat

/-- How `main` terminates: it returns (the process then exits 0) or it
re-raises an exception (the top-level handler in `main.py` lines 254-256
prints the fatal error and exits 1). -/
inductive MainOutcome where
  | finished
  | raised
deriving DecidableEq

/-- Observable result of one invocation of the program: printed lines, how
many pages were fetched and appended, whether scraping started and whether
the confirmation prompt was shown, the orchestrator result when scraping
ran, the final store, the resource-event trace, the way `main` ended and
the process exit code. -/
structure MainResult where
  output : List String
  fetches : Nat
  appends : Nat
  scrapeStarted : Bool
  prompted : Bool
  loopRes : Option LoopAcc
  finalStore : Store
  trace : List Event
  outcome : MainOutcome
  exit : Nat

/-- Notable printed lines, modelled after the messages of `main.py`. -/
def initLine : String := "Initializing scraper..."

/-- Line printed when entering summary mode. -/
def genLine : String := "Generating data summary..."

/-- Line printed when verbose logging is enabled. -/
def verboseLine : String := "Verbose logging enabled"

/-- Line printed when the user declines the confirmation prompt. -/
def cancelLine : String := "Scraping cancelled by user"

/-- First line of the KeyboardInterrupt handler, `main.py` line 227. -/
def interruptLine : String := "Scraping interrupted by user"

/-- Second line of the KeyboardInterrupt handler, `main.py` line 228. -/
def savedLine : String := "Any completed pages have been saved"

/-- Resumable-state notice of the KeyboardInterrupt handler, line 229. -/
def resumeNoticeLine : String := "Use --resume flag to continue from where you left off"

/-- Hint printed with a configuration error, `main.py` line 240. -/
def configHintLine : String := "Make sure config.py exists in the same directory"

/-- Line printed for a FileNotFoundError, `main.py` line 239. -/
def configErrorLine (msg : String) : String := "Configuration Error: " ++ msg

/-- Line printed for any other exception, `main.py` line 243. -/
def criticalLine (msg : String) : String := "Critical Error: " ++ msg

/-- Hint printed with a critical error, `main.py` line 244. -/
def logsHintLine : String := "Check the logs for more details"

/-- Final statistics display of `main.py` lines 205-215. -/
def completedLines (la : LoopAcc) : List String :=
  ["SCRAPING COMPLETED!",
   "Pages scraped: " ++ toString la.scraped,
   "Pages skipped: " ++ toString la.skipped,
   "Cards extracted: " ++ toString la.cards,
   "Errors: " ++ toString la.errors]

/-- Result of `main` when scraper construction raises FileNotFoundError:
the error is surfaced with a hint, nothing is fetched or written, and
`main` returns (exit 0), per `main.py` lines 238-240. -/
def fnfResult (menv : MainEnv) (msg : String) : MainResult :=
  { output := [initLine, configErrorLine msg, configHintLine],
    fetches := 0, appends := 0, scrapeStarted := false, prompted := false,
    loopRes := none, finalStore := menv.store, trace := [],
    outcome := MainOutcome.finished, exit := 0 }

/-- Result of `main` when scraper construction raises any other exception:
the error is surfaced and re-raised, so the process exits 1, per `main.py`
lines 242-245 and 254-256. -/
def errResult (menv : MainEnv) (msg : String) : MainResult :=
  { output := [initLine, criticalLine msg, logsHintLine],
    fetches := 0, appends := 0, scrapeStarted := false, prompted := false,
    loopRes := none, finalStore := menv.store, trace := [],
    outcome := MainOutcome.raised, exit := 1 }

/-- Result of `main` in summary mode, `main.py` lines 149-153: print the
summary of the current store and return without scraping. -/
def summaryResult (menv : MainEnv) : MainResult :=
  { output := [initLine, genLine] ++ print_summary menv.store.summarize,
    fetches := 0, appends := 0, scrapeStarted := false, prompted := false,
    loopRes := none, finalStore := menv.store, trace := [],
    outcome := MainOutcome.finished, exit := 0 }

/-- Result of `main` when the confirmation prompt is declined or
interrupted, `main.py` lines 188-196: no scraping, store untouched. -/
def cancelResult (menv : MainEnv) : MainResult :=
  { output := [initLine, cancelLine],
    fetches := 0, appends := 0, scrapeStarted := false, prompted := true,
    loopRes := none, finalStore := menv.store, trace := [],
    outcome := MainOutcome.finished, exit := 0 }

/-- Output shown after the orchestrator loop returns, by terminal state:
the KeyboardInterrupt handler lines for a cancelled run (`main.py` lines
226-229), the critical-error lines for a failed run (lines 242-244), and
the statistics plus, when cards were extracted, the data summary for a
completed run (lines 205-221). -/
def runOutput (la : LoopAcc) : List String :=
  match la.state with
  | RunState.Cancelled => [interruptLine, savedLine, resumeNoticeLine]
  | RunState.Failed => [criticalLine "scrape failed", logsHintLine]
  | _ => completedLines la
         ++ (if la.cards > 0 then print_summary la.store.summarize else [])

/-- Start page actually in effect: argument override, else the configured
default. -/
def runStart (menv : MainEnv) (s? : Option Nat) : Nat :=
  s?.getD menv.config.start_page

/-- End page actually in effect: argument override, else configured end
page; none means auto-detect. -/
def runEnd (menv : MainEnv) (e? : Option Nat) : Option Nat :=
  match e? with
  | some e => some e
  | none => menv.config.end_page

/-- Number of pages in the requested range: for an explicit end page, the
pages from start to end inclusive; for auto-detect, the page bound. -/
def runFuel (menv : MainEnv) (s? e? : Option Nat) : Nat :=
  match runEnd menv e? with
  | some e => e + 1 - runStart menv s?
  | none => menv.autoFuel

/-- Orchestrator result of the scraping phase over the run's environment
and resolved page range. -/
def runLa (menv : MainEnv) (re : Bool) (s? e? : Option Nat) : LoopAcc :=
  scrapeLoop { fetch := menv.fetch, interrupt := menv.interrupt }
    re (runEnd menv e?).isSome (runFuel menv s? e?) (runStart menv s?)
    (initAcc menv.store)

/-- Result of the scraping phase of `main`: run the orchestrator over the
store with the browser session held, and dispatch on the terminal state.
The session is acquired before the first page and released on every exit
path.  A cancelled run returns normally (exit 0); a failed run re-raises
(exit 1). -/
def runResult (menv : MainEnv) (re : Bool) (s? e? : Option Nat) : MainResult :=
  { output := [initLine] ++ runOutput (runLa menv re s? e?),
    fetches := (runLa menv re s? e?).fetched.length,
    appends := (runLa menv re s? e?).events.length,
    scrapeStarted := true,
    prompted := !re,
    loopRes := some (runLa menv re s? e?),
    finalStore := (runLa menv re s? e?).store,
    trace := Event.acquire :: ((runLa menv re s? e?).events.concat Event.release),
    outcome := if (runLa menv re s? e?).state = RunState.Failed then MainOutcome.raised
               else MainOutcome.finished,
    exit := if (runLa menv re s? e?).state = RunState.Failed then 1 else 0 }

/-- Control flow of `main` in `main.py` lines 143-245, without the verbose
flag (which only adds a log line): construction errors first, then summary
mode, then the confirmation prompt (skipped when resuming), then the
scraping phase. -/
def mainCore (menv : MainEnv) (re su : Bool) (s? e? : Option Nat) : MainResult :=
  match menv.initResult with
  | InitResult.fileNotFound msg => fnfResult menv msg
  | InitResult.otherError msg => errResult menv msg
  | InitResult.ok =>
    if su then summaryResult menv
    else if re || confirmedAnswer menv.userInput then runResult menv re s? e?
    else cancelResult menv

/-- One invocation of the program: `mainCore` on the argument fields that
drive behaviour, plus the verbose log line when requested (`main.py` lines
155-159; it is printed only after a successful construction and outside
summary mode). -/
def mainRun (menv : MainEnv) (args : Args) : MainResult :=
  let r := mainCore menv args.resume args.summary args.start args.endPage
  { r with output :=
      (if args.verbose && !args.summary && menv.initResult.isOk
       then [verboseLine] else []) ++ r.output }

/-- Every observable component of a run except its printed lines. -/
def MainResult.behavior (r : MainResult) :
    Nat × Nat × Bool × Bool × Option LoopAcc × Store × List Event × MainOutcome × Nat :=
  (r.fetches, r.appends, r.scrapeStarted, r.prompted, r.loopRes,
   r.finalStore, r.trace, r.outcome, r.exit)

/-- Contribution of auto-detected end-of-data to the page count: the final
empty page is visited but recorded in no statistics counter. -/
def eN (a : LoopAcc) : Nat := if a.endedByEmpty then 1 else 0

/-- Contribution of a fatal stop to the page count: the fatally failing
page is visited but recorded in no statistics counter. -/
def fN (a : LoopAcc) : Nat := if a.state = RunState.Failed then 1 else 0

/-- What one continuing step guarantees: the store only grows, exactly page
n is added to the visited list, the fetched list grows by at most n and
never by an already-persisted page, the run state and end-of-data flag are
untouched, exactly one statistics counter increments, the append-event
invariant is preserved, and a skip changes nothing but the skip counter. -/
theorem pageStep_cont_spec {env : Env} {re eg : Bool} {n : Nat} {acc a : LoopAcc}
    (h : pageStep env re eg n acc = StepRes.cont a) :
    (∃ t, a.store.pages = acc.store.pages ++ t) ∧
    a.visited = acc.visited ++ [n] ∧
    (a.fetched = acc.fetched ∨ a.fetched = acc.fetched ++ [n]) ∧
    (∀ m, re = true → acc.store.has_page m = true → m ∈ a.fetched → m ∈ acc.fetched) ∧
    a.state = acc.state ∧
    a.endedByEmpty = acc.endedByEmpty ∧
    a.scraped + a.skipped + a.errors = acc.scraped + acc.skipped + acc.errors + 1 ∧
    ((∀ p q, Event.append p q ∈ acc.events → (p, q) ∈ acc.store.pages) →
      ∀ p q, Event.append p q ∈ a.events → (p, q) ∈ a.store.pages) ∧
    ((re && acc.store.has_page n) = true →
      a.scraped = acc.scraped ∧ a.fetched = acc.fetched ∧
      a.skipped = acc.skipped + 1 ∧ a.store = acc.store) := by
  unfold pageStep at h
  split at h
  · cases h
  split at h
  next hskip =>
    cases h
    refine ⟨⟨[], by simp⟩, rfl, Or.inl rfl, fun m _ _ hm => hm, rfl, rfl, by dsimp only; omega,
      fun hinv p q hp => hinv p q hp, fun _ => ⟨rfl, rfl, rfl, rfl⟩⟩
  next hnoskip =>
    split at h
    next cs hfetch =>
      split at h
      next hemp =>
        split at h
        next heg =>
          cases h
          refine ⟨⟨[], by simp⟩, rfl, Or.inr rfl, ?_, rfl, rfl, by dsimp only; omega,
            fun hinv p q hp => hinv p q hp, fun hsk => absurd hsk hnoskip⟩
          intro m hre hm hmem
          rcases List.mem_append.mp hmem with hmem | hmem
          · exact hmem
          · exfalso
            rw [List.mem_singleton.mp hmem] at hm
            subst hre
            simp [hm] at hnoskip
        next heg => cases h
      next hemp =>
        cases h
        refine ⟨⟨[(n, cs)], rfl⟩, rfl, Or.inr rfl, ?_, rfl, rfl, by dsimp only; omega, ?_,
          fun hsk => absurd hsk hnoskip⟩
        · intro m hre hm hmem
          rcases List.mem_append.mp hmem with hmem | hmem
          · exact hmem
          · exfalso
            rw [List.mem_singleton.mp hmem] at hm
            subst hre
            simp [hm] at hnoskip
        · intro hinv p q hp
          rcases List.mem_append.mp hp with hp | hp
          · exact List.mem_append_left _ (hinv p q hp)
          · simp only [List.mem_singleton] at hp
            cases hp
            exact List.mem_append_right _ (List.mem_singleton.mpr rfl)
    next hfetch =>
      cases h
      refine ⟨⟨[], by simp⟩, rfl, Or.inr rfl, ?_, rfl, rfl, by dsimp only; omega,
        fun hinv p q hp => hinv p q hp, fun hsk => absurd hsk hnoskip⟩
      intro m hre hm hmem
      rcases List.mem_append.mp hmem with hmem | hmem
      · exact hmem
      · exfalso
        rw [List.mem_singleton.mp hmem] at hm
        subst hre
        simp [hm] at hnoskip
    next hfetch => cases h

/-- What one stopping step guarantees: the store and events are untouched,
the visited and fetched lists grow by at most n (never by a persisted page
when resuming), and the counting balance extends by the stopped page. -/
theorem pageStep_stop_spec {env : Env} {re eg : Bool} {n : Nat} {acc a : LoopAcc}
    (h : pageStep env re eg n acc = StepRes.stop a) :
    a.store = acc.store ∧
    (a.visited = acc.visited ∨ a.visited = acc.visited ++ [n]) ∧
    (a.fetched = acc.fetched ∨ a.fetched = acc.fetched ++ [n]) ∧
    (∀ m, re = true → acc.store.has_page m = true → m ∈ a.fetched → m ∈ acc.fetched) ∧
    a.events = acc.events ∧
    (acc.state = RunState.Running → acc.endedByEmpty = false →
      a.scraped + a.skipped + a.errors + eN a + fN a + acc.visited.length
        = acc.scraped + acc.skipped + acc.errors + a.visited.length) := by
  unfold pageStep at h
  split at h
  · cases h
    refine ⟨rfl, Or.inl rfl, Or.inl rfl, fun m _ _ hm => hm, rfl, ?_⟩
    intro _ hemp
    simp [eN, fN, hemp]
  split at h
  next hskip => cases h
  next hnoskip =>
    split at h
    next cs hfetch =>
      split at h
      next hemp =>
        split at h
        next heg => cases h
        next heg =>
          cases h
          refine ⟨rfl, Or.inr rfl, Or.inr rfl, ?_, rfl, ?_⟩
          · intro m hre hm hmem
            rcases List.mem_append.mp hmem with hmem | hmem
            · exact hmem
            · exfalso
              rw [List.mem_singleton.mp hmem] at hm
              subst hre
              simp [hm] at hnoskip
          · intro _ hemp'
            simp only [eN, fN, List.length_append, List.length_singleton]
            simp [hemp']
            omega
      next hemp => cases h
    next hfetch => cases h
    next hfetch =>
      cases h
      refine ⟨rfl, Or.inr rfl, Or.inr rfl, ?_, rfl, ?_⟩
      · intro m hre hm hmem
        rcases List.mem_append.mp hmem with hmem | hmem
        · exact hmem
        · exfalso
          rw [List.mem_singleton.mp hmem] at hm
          subst hre
          simp [hm] at hnoskip
      · intro hrun hemp'
        simp only [eN, fN, List.length_append, List.length_singleton]
        simp [hemp']
        omega

/-- A store that only grew still answers true to `has_page`. -/
theorem has_page_mono {s s' : Store} {m : Nat} (h : ∃ t, s'.pages = s.pages ++ t)
    (hm : s.has_page m = true) : s'.has_page m = true := by
  obtain ⟨t, ht⟩ := h
  simp only [Store.has_page, ht, List.any_append, Bool.or_eq_true]
  exact Or.inl hm

/-- The orchestrator loop never removes store records: it only appends. -/
theorem loop_store_mono (env : Env) (re eg : Bool) :
    ∀ fuel n acc, ∃ t,
      (scrapeLoop env re eg fuel n acc).store.pages = acc.store.pages ++ t := by
  intro fuel
  induction fuel with
  | zero => intro n acc; exact ⟨[], by simp [scrapeLoop]⟩
  | succ fuel ih =>
    intro n acc
    rcases hs : pageStep env re eg n acc with a | a
    · obtain ⟨u, hu⟩ := (pageStep_cont_spec hs).1
      obtain ⟨t, ht⟩ := ih (n + 1) a
      refine ⟨u ++ t, ?_⟩
      simp only [scrapeLoop, hs, ht, hu, List.append_assoc]
    · refine ⟨[], ?_⟩
      have := (pageStep_stop_spec hs).1
      simp [scrapeLoop, hs, this]

/-- With the resume flag set, a page persisted before the loop started is
never fetched by the loop. -/
theorem loop_no_refetch (env : Env) (eg : Bool) :
    ∀ fuel n acc m, acc.store.has_page m = true →
      m ∈ (scrapeLoop env true eg fuel n acc).fetched → m ∈ acc.fetched := by
  intro fuel
  induction fuel with
  | zero => intro n acc m _ hm; simpa [scrapeLoop] using hm
  | succ fuel ih =>
    intro n acc m hpage hm
    rcases hs : pageStep env true eg n acc with a | a
    · simp only [scrapeLoop, hs] at hm
      have hpage' : a.store.has_page m = true :=
        has_page_mono (pageStep_cont_spec hs).1 hpage
      exact (pageStep_cont_spec hs).2.2.2.1 m rfl hpage (ih (n + 1) a m hpage' hm)
    · simp only [scrapeLoop, hs] at hm
      exact (pageStep_stop_spec hs).2.2.2.1 m rfl hpage hm

/-- Every append event the loop has emitted is present in the loop's final
store: live-save means a persisted page is never rolled back. -/
theorem loop_appends (env : Env) (re eg : Bool) :
    ∀ fuel n acc,
      (∀ p q, Event.append p q ∈ acc.events → (p, q) ∈ acc.store.pages) →
      ∀ p q, Event.append p q ∈ (scrapeLoop env re eg fuel n acc).events →
        (p, q) ∈ (scrapeLoop env re eg fuel n acc).store.pages := by
  intro fuel
  induction fuel with
  | zero => intro n acc hinv p q hp; simp only [scrapeLoop] at hp ⊢; exact hinv p q hp
  | succ fuel ih =>
    intro n acc hinv p q hp
    rcases hs : pageStep env re eg n acc with a | a
    · simp only [scrapeLoop, hs] at hp ⊢
      exact ih (n + 1) a ((pageStep_cont_spec hs).2.2.2.2.2.2.2.1 hinv) p q hp
    · simp only [scrapeLoop, hs] at hp ⊢
      rw [(pageStep_stop_spec hs).2.2.2.2.1] at hp
      rw [(pageStep_stop_spec hs).1]
      exact hinv p q hp

/-- The loop visits page numbers in strictly ascending order: if everything
visited so far is below the next page number, the visited list stays
strictly sorted. -/
theorem loop_sorted (env : Env) (re eg : Bool) :
    ∀ fuel n acc, (∀ m ∈ acc.visited, m < n) → acc.visited.Pairwise (· < ·) →
      ((scrapeLoop env re eg fuel n acc).visited).Pairwise (· < ·) := by
  intro fuel
  induction fuel with
  | zero => intro n acc _ hp; simpa [scrapeLoop] using hp
  | succ fuel ih =>
    intro n acc hb hp
    have hext : (acc.visited ++ [n]).Pairwise (· < ·) := by
      rw [List.pairwise_append]
      exact ⟨hp, List.pairwise_singleton _ _, fun x hx y hy => by
        rw [List.mem_singleton.mp hy]; exact hb x hx⟩
    have hbext : ∀ m ∈ acc.visited ++ [n], m < n + 1 := by
      intro m hm
      rcases List.mem_append.mp hm with hm | hm
      · exact Nat.lt_succ_of_lt (hb m hm)
      · rw [List.mem_singleton.mp hm]; exact Nat.lt_succ_self n
    rcases hs : pageStep env re eg n acc with a | a
    · have hv := (pageStep_cont_spec hs).2.1
      simp only [scrapeLoop, hs]
      exact ih (n + 1) a (by rw [hv]; exact hbext) (by rw [hv]; exact hext)
    · rcases (pageStep_stop_spec hs).2.1 with hv | hv
      · simp only [scrapeLoop, hs, hv]; exact hp
      · simp only [scrapeLoop, hs, hv]; exact hext

/-- Counting balance of the loop: every visited page is recorded in exactly
one of pages_scraped, pages_skipped, errors, the end-of-data marker or the
fatal-stop marker. -/
theorem loop_count (env : Env) (re eg : Bool) :
    ∀ fuel n acc, acc.state = RunState.Running → acc.endedByEmpty = false →
      (scrapeLoop env re eg fuel n acc).scraped
        + (scrapeLoop env re eg fuel n acc).skipped
        + (scrapeLoop env re eg fuel n acc).errors
        + eN (scrapeLoop env re eg fuel n acc)
        + fN (scrapeLoop env re eg fuel n acc)
        + acc.visited.length
      = acc.scraped + acc.skipped + acc.errors
        + (scrapeLoop env re eg fuel n acc).visited.length := by
  intro fuel
  induction fuel with
  | zero =>
    intro n acc hrun hemp
    simp [scrapeLoop, eN, fN, hemp]
  | succ fuel ih =>
    intro n acc hrun hemp
    rcases hs : pageStep env re eg n acc with a | a
    · obtain ⟨-, hv, -, -, hst, heb, hcount, -, -⟩ := pageStep_cont_spec hs
      have harun : a.state = RunState.Running := by rw [hst]; exact hrun
      have haemp : a.endedByEmpty = false := by rw [heb]; exact hemp
      have hlen : a.visited.length = acc.visited.length + 1 := by simp [hv]
      have := ih (n + 1) a harun haemp
      simp only [scrapeLoop, hs]
      omega
    · obtain ⟨-, -, -, -, -, hcount⟩ := pageStep_stop_spec hs
      have := hcount hrun hemp
      simp only [scrapeLoop, hs]
      omega

/-- When every page of the remaining range is already persisted and no
interrupt arrives, a resuming loop fetches nothing, scrapes nothing, skips
the whole range and completes. -/
theorem loop_skip_all (env : Env) (eg : Bool) :
    ∀ fuel n acc, (∀ k, env.interrupt k = false) →
      (∀ k ∈ List.range' n fuel, acc.store.has_page k = true) →
      (scrapeLoop env true eg fuel n acc).scraped = acc.scraped ∧
      (scrapeLoop env true eg fuel n acc).fetched = acc.fetched ∧
      (scrapeLoop env true eg fuel n acc).skipped = acc.skipped + fuel ∧
      (scrapeLoop env true eg fuel n acc).state = RunState.Completed := by
  intro fuel
  induction fuel with
  | zero => intro n acc _ _; simp [scrapeLoop]
  | succ fuel ih =>
    intro n acc hni hall
    have hpage : acc.store.has_page n = true := by
      refine hall n ?_
      simp [List.mem_range'_1]
    have hs : pageStep env true eg n acc =
        StepRes.cont { acc with skipped := acc.skipped + 1, visited := acc.visited ++ [n] } := by
      simp [pageStep, hni n, hpage]
    have hall' : ∀ k ∈ List.range' (n + 1) fuel,
        ({ acc with skipped := acc.skipped + 1, visited := acc.visited ++ [n] } : LoopAcc).store.has_page k = true := by
      intro k hk
      refine hall k ?_
      simp only [List.mem_range'_1] at hk ⊢
      omega
    have := ih (n + 1) _ hni hall'
    simp only [scrapeLoop, hs]
    refine ⟨this.1, this.2.1, ?_, this.2.2.2⟩
    rw [this.2.2.1]
    dsimp only
    omega

/-- C1: with the resume flag, any page already recorded as complete in the
store is skipped and never fetched again; consequently a resumed run over a
range whose pages are all already persisted (the second of two back-to-back
resumed runs with no new data) scrapes zero pages, fetches nothing and
skips the whole range. -/
theorem resume_skip_idempotent (env : Env) (eg : Bool) (fuel start : Nat) (st : Store) :
    (∀ m, st.has_page m = true →
      m ∉ (scrapeLoop env true eg fuel start (initAcc st)).fetched) ∧
    ((∀ k, env.interrupt k = false) →
      (∀ k ∈ List.range' start fuel, st.has_page k = true) →
      (scrapeLoop env true eg fuel start (initAcc st)).scraped = 0 ∧
      (scrapeLoop env true eg fuel start (initAcc st)).fetched = [] ∧
      (scrapeLoop env true eg fuel start (initAcc st)).skipped = fuel) := by
  constructor
  · intro m hm hmem
    have h := loop_no_refetch env eg fuel start (initAcc st) m hm hmem
    simp [initAcc] at h
  · intro hni hall
    have h := loop_skip_all env eg fuel start (initAcc st) hni hall
    exact ⟨h.1, h.2.1, by rw [h.2.2.1]; simp [initAcc]⟩

/-- Concrete card used by the C1 witness. -/
def cardW : Card := { name := "w", tier := "1", series := "S" }

/-- Concrete environment for the C1 witness: every fetch succeeds, no
interrupt arrives. -/
def envW : Env :=
  { fetch := fun _ => FetchResult.cards [cardW], interrupt := fun _ => false }

/-- Store for the C1 witness, holding pages 1 and 2. -/
def stW : Store := Store.mk [(1, [cardW]), (2, [cardW])]

/-- Witness for C1: resuming over pages 1-2 when both are persisted
scrapes 0 pages, fetches nothing and skips both. -/
theorem resume_skip_idempotent_witness :
    (scrapeLoop envW true true 2 1 (initAcc stW)).scraped = 0 ∧
    (scrapeLoop envW true true 2 1 (initAcc stW)).fetched = [] ∧
    (scrapeLoop envW true true 2 1 (initAcc stW)).skipped = 2 :=
  (resume_skip_idempotent envW true 2 1 stW).2 (fun _ => rfl) (by decide)

/-- Concrete environment for the C4 example: pages 1/2/3 return 5/0/4
cards. -/
def envC4 : Env :=
  { fetch := fun n =>
      if n = 1 then
        FetchResult.cards [{ name := "a", tier := "1", series := "S" },
          { name := "b", tier := "1", series := "S" },
          { name := "c", tier := "1", series := "S" },
          { name := "d", tier := "1", series := "S" },
          { name := "e", tier := "1", series := "S" }]
      else if n = 2 then FetchResult.cards []
      else
        FetchResult.cards [{ name := "f", tier := "1", series := "S" },
          { name := "g", tier := "1", series := "S" },
          { name := "h", tier := "1", series := "S" },
          { name := "i", tier := "1", series := "S" }],
    interrupt := fun _ => false }

/-- C4: the orchestrator visits pages in strictly ascending order, and a
zero-card page is end-of-data exactly when no explicit end page was given:
without an end page a zero-card page completes the run on the spot, with an
end page it is counted and the loop moves on; on the concrete 5/0/4 example
with end page 3 this yields pages_scraped=3, cards_extracted=9, errors=0. -/
theorem ascending_and_zero_card_policy :
    (∀ (env : Env) (re eg : Bool) (fuel n : Nat) (st : Store),
      ((scrapeLoop env re eg fuel n (initAcc st)).visited).Pairwise (· < ·)) ∧
    ((scrapeLoop envC4 false true 3 1 (initAcc (Store.mk []))).scraped = 3 ∧
      (scrapeLoop envC4 false true 3 1 (initAcc (Store.mk []))).cards = 9 ∧
      (scrapeLoop envC4 false true 3 1 (initAcc (Store.mk []))).errors = 0 ∧
      (scrapeLoop envC4 false true 3 1 (initAcc (Store.mk []))).state = RunState.Completed ∧
      (scrapeLoop envC4 false true 3 1 (initAcc (Store.mk []))).visited = [1, 2, 3]) ∧
    (∀ (env : Env) (n fuel : Nat) (acc : LoopAcc),
      env.interrupt n = false → env.fetch n = FetchResult.cards [] →
      scrapeLoop env false false (fuel + 1) n acc
        = { acc with
            state := RunState.Completed, endedByEmpty := true,
            visited := acc.visited ++ [n], fetched := acc.fetched ++ [n] }) ∧
    (∀ (env : Env) (n fuel : Nat) (acc : LoopAcc),
      env.interrupt n = false → env.fetch n = FetchResult.cards [] →
      scrapeLoop env false true (fuel + 1) n acc
        = scrapeLoop env false true fuel (n + 1)
            { acc with
              scraped := acc.scraped + 1,
              visited := acc.visited ++ [n], fetched := acc.fetched ++ [n] }) := by
  refine ⟨?_, by decide, ?_, ?_⟩
  · intro env re eg fuel n st
    exact loop_sorted env re eg fuel n (initAcc st) (by simp [initAcc]) (by simp [initAcc])
  · intro env n fuel acc hI hF
    simp [scrapeLoop, pageStep, hI, hF]
  · intro env n fuel acc hI hF
    simp [scrapeLoop, pageStep, hI, hF]

/-- Environment for the C4 witness: every page is empty, no interrupt. -/
def envC4w : Env :=
  { fetch := fun _ => FetchResult.cards [], interrupt := fun _ => false }

/-- Witness for C4: in auto-detect mode an empty page 1 immediately
completes the run having visited only page 1. -/
theorem ascending_and_zero_card_policy_witness :
    scrapeLoop envC4w false false 1 1 (initAcc (Store.mk []))
      = { initAcc (Store.mk []) with
          state := RunState.Completed, endedByEmpty := true,
          visited := [1], fetched := [1] } := by
  have h := ascending_and_zero_card_policy.2.2.1 envC4w 1 0 (initAcc (Store.mk [])) rfl rfl
  simpa [initAcc] using h

/-- C5: the terminal success-rate statistic equals
100 * pages_scraped / (pages_scraped + errors) when the denominator is
nonzero and is 100 otherwise; it always lies in [0, 100] and is exactly 100
whenever there are no errors and at least one scraped page. -/
theorem success_rate_bounds (p e : Nat) :
    0 ≤ success_rate p e ∧ success_rate p e ≤ 100 ∧
    (p + e ≠ 0 → success_rate p e = 100 * (p : ℚ) / ((p : ℚ) + (e : ℚ))) ∧
    (e = 0 → 0 < p → success_rate p e = 100) := by
  by_cases h : p + e = 0
  · rw [success_rate, if_pos h]
    exact ⟨by norm_num, by norm_num, fun hc => absurd h hc,
      fun _ hp => absurd hp (by omega)⟩
  · have hpos : (0 : ℚ) < (p : ℚ) + (e : ℚ) := by
      have h' : 0 < p + e := Nat.pos_of_ne_zero h
      exact_mod_cast h'
    have hee : (0 : ℚ) ≤ (e : ℚ) := by positivity
    rw [success_rate, if_neg h]
    refine ⟨by positivity, ?_, fun _ => rfl, ?_⟩
    · rw [div_le_iff₀ hpos]
      linarith
    · intro he hp
      subst he
      have hp' : (p : ℚ) ≠ 0 := Nat.cast_ne_zero.mpr (by omega)
      push_cast
      field_simp

/-- Witness for C5: a run with 3 scraped pages and 1 error has success rate
75, within bounds, and a run with 5 scraped pages and no errors has success
rate 100. -/
theorem success_rate_bounds_witness :
    (success_rate 3 1 = 100 * (3 : ℚ) / ((3 : ℚ) + (1 : ℚ))) ∧
    success_rate 5 0 = 100 :=
  ⟨by
    have h := (success_rate_bounds 3 1).2.2.1 (by decide)
    simpa using h,
   (success_rate_bounds 5 0).2.2.2 rfl (by decide)⟩

/-- Environment for the C6 counterexample: page 1 raises a transient
error. -/
def envC6 : Env :=
  { fetch := fun _ => FetchResult.transientError, interrupt := fun _ => false }

/-- Counterexample to C6 as stated: the run over the single-page range
1..1 whose only page raises a transient error completes, yet
pages_scraped + pages_skipped = 0 while 1 page number was visited. -/
theorem page_accounting_counterexample :
    (scrapeLoop envC6 false true 1 1 (initAcc (Store.mk []))).state = RunState.Completed ∧
    ¬ ((scrapeLoop envC6 false true 1 1 (initAcc (Store.mk []))).scraped
        + (scrapeLoop envC6 false true 1 1 (initAcc (Store.mk []))).skipped
      = ((scrapeLoop envC6 false true 1 1 (initAcc (Store.mk []))).visited).length) := by
  decide

/-- C6 as amended: for every completed run, pages_scraped + pages_skipped
+ errors, plus one for the final empty page when the run ended by
auto-detected end-of-data, equals the number of page numbers visited. -/
theorem completed_page_accounting (env : Env) (re eg : Bool) (fuel start : Nat) (st : Store)
    (hc : (scrapeLoop env re eg fuel start (initAcc st)).state = RunState.Completed) :
    (scrapeLoop env re eg fuel start (initAcc st)).scraped
      + (scrapeLoop env re eg fuel start (initAcc st)).skipped
      + (scrapeLoop env re eg fuel start (initAcc st)).errors
      + eN (scrapeLoop env re eg fuel start (initAcc st))
    = ((scrapeLoop env re eg fuel start (initAcc st)).visited).length := by
  have h := loop_count env re eg fuel start (initAcc st) rfl rfl
  have hf : fN (scrapeLoop env re eg fuel start (initAcc st)) = 0 := by
    simp [fN, hc]
  rw [hf, show (initAcc st).visited = ([] : List Nat) from rfl,
      show (initAcc st).scraped = 0 from rfl, show (initAcc st).skipped = 0 from rfl,
      show (initAcc st).errors = 0 from rfl] at h
  simp only [List.length_nil] at h
  omega

/-- Witness for the amended C6: the counterexample run satisfies the
corrected accounting 0 + 0 + 1 + 0 = 1. -/
theorem completed_page_accounting_witness :
    (scrapeLoop envC6 false true 1 1 (initAcc (Store.mk []))).scraped
      + (scrapeLoop envC6 false true 1 1 (initAcc (Store.mk []))).skipped
      + (scrapeLoop envC6 false true 1 1 (initAcc (Store.mk []))).errors
      + eN (scrapeLoop envC6 false true 1 1 (initAcc (Store.mk [])))
    = ((scrapeLoop envC6 false true 1 1 (initAcc (Store.mk []))).visited).length :=
  completed_page_accounting envC6 false true 1 1 (Store.mk []) (by decide)

/-- The prompt answer confirms exactly when some input was given whose
normal form is y or yes. -/
theorem confirmedAnswer_iff (inp : Option String) :
    confirmedAnswer inp = true ↔
      ∃ s, inp = some s ∧
        (normalizeResponse s = "y" ∨ normalizeResponse s = "yes") := by
  cases inp with
  | none => simp [confirmedAnswer]
  | some s => simp [confirmedAnswer]

/-- The five shapes a program invocation can take: construction failure,
construction error, summary mode, a confirmed (or resumed) scrape, or a
declined prompt. -/
theorem mainCore_cases (menv : MainEnv) (re su : Bool) (s? e? : Option Nat) :
    (∃ msg, menv.initResult = InitResult.fileNotFound msg ∧
      mainCore menv re su s? e? = fnfResult menv msg) ∨
    (∃ msg, menv.initResult = InitResult.otherError msg ∧
      mainCore menv re su s? e? = errResult menv msg) ∨
    (su = true ∧ mainCore menv re su s? e? = summaryResult menv) ∨
    (su = false ∧ (re || confirmedAnswer menv.userInput) = true ∧
      mainCore menv re su s? e? = runResult menv re s? e?) ∨
    (su = false ∧ (re || confirmedAnswer menv.userInput) = false ∧
      mainCore menv re su s? e? = cancelResult menv) := by
  cases hinit : menv.initResult with
  | fileNotFound msg => exact Or.inl ⟨msg, rfl, by simp [mainCore, hinit]⟩
  | otherError msg => exact Or.inr (Or.inl ⟨msg, rfl, by simp [mainCore, hinit]⟩)
  | ok =>
    by_cases hsu : su = true
    · exact Or.inr (Or.inr (Or.inl ⟨hsu, by simp [mainCore, hinit, hsu]⟩))
    · have hsu' : su = false := by simpa using hsu
      by_cases hc : (re || confirmedAnswer menv.userInput) = true
      · exact Or.inr (Or.inr (Or.inr (Or.inl ⟨hsu', hc,
          by simp [mainCore, hinit, hsu', hc]⟩)))
      · have hc' : (re || confirmedAnswer menv.userInput) = false := by simpa using hc
        exact Or.inr (Or.inr (Or.inr (Or.inr ⟨hsu', hc',
          by simp [mainCore, hinit, hsu', hc']⟩)))

/-- C9: two runs identical except for the verbose flag have identical
behaviour — same fetches, appends, orchestrator result, final store,
resource trace, outcome and exit code; only log output may differ. -/
theorem verbose_no_behavioral_effect (menv : MainEnv) (args : Args) :
    (mainRun menv { args with verbose := true }).behavior
      = (mainRun menv { args with verbose := false }).behavior := rfl

/-- C8: when scraper construction raises FileNotFoundError, the error is
surfaced with a human-readable cause and the run never starts: no prompt,
no page fetch, no store write, the store is untouched and `main` returns. -/
theorem config_error_blocks_run (menv : MainEnv) (args : Args) (msg : String)
    (h : menv.initResult = InitResult.fileNotFound msg) :
    (mainRun menv args).scrapeStarted = false ∧
    (mainRun menv args).prompted = false ∧
    (mainRun menv args).fetches = 0 ∧
    (mainRun menv args).appends = 0 ∧
    (mainRun menv args).loopRes = none ∧
    (mainRun menv args).finalStore = menv.store ∧
    (mainRun menv args).trace = [] ∧
    configErrorLine msg ∈ (mainRun menv args).output ∧
    (mainRun menv args).outcome = MainOutcome.finished := by
  simp [mainRun, mainCore, h, fnfResult, InitResult.isOk]

/-- Environment for the C8 witness: the configuration file is missing. -/
def menvC8 : MainEnv :=
  { initResult := InitResult.fileNotFound "config.py",
    config := { start_page := 1, end_page := some 3, output_folder := "data" },
    store := Store.mk [], userInput := some "y",
    fetch := fun _ => FetchResult.cards [], interrupt := fun _ => false,
    autoFuel := 5 }

/-- Arguments for the C8 witness: a plain scraping invocation. -/
def argsC8 : Args :=
  { start := none, endPage := none, resume := false, summary := false,
    verbose := false }

/-- Witness for C8: with a missing configuration, nothing is fetched and
the cause is printed. -/
theorem config_error_blocks_run_witness :
    (mainRun menvC8 argsC8).fetches = 0 ∧
    configErrorLine "config.py" ∈ (mainRun menvC8 argsC8).output :=
  ⟨(config_error_blocks_run menvC8 argsC8 "config.py" rfl).2.2.1,
   (config_error_blocks_run menvC8 argsC8 "config.py" rfl).2.2.2.2.2.2.2.1⟩

/-- C2: in summary mode the program prints the summary of the current
store and exits 0 without starting a scrape, fetching a page or touching
the store; on the empty store the summary has zero cards, no pages and no
samples; and the display shows at most the first three sample cards. -/
theorem summary_mode_spec (menv : MainEnv) (args : Args)
    (hok : menv.initResult = InitResult.ok) (hsu : args.summary = true) :
    (mainRun menv args).loopRes = none ∧
    (mainRun menv args).fetches = 0 ∧
    (mainRun menv args).appends = 0 ∧
    (mainRun menv args).scrapeStarted = false ∧
    (mainRun menv args).finalStore = menv.store ∧
    (mainRun menv args).outcome = MainOutcome.finished ∧
    (mainRun menv args).exit = 0 ∧
    (mainRun menv args).output = [initLine, genLine] ++ print_summary menv.store.summarize ∧
    (Store.mk []).summarize.total_cards = 0 ∧
    (Store.mk []).summarize.scraped_pages = [] ∧
    (Store.mk []).summarize.sample_cards = [] ∧
    displayedSamples (Store.mk []).summarize = [] ∧
    (∀ s : Summary, (displayedSamples s).length ≤ 3) := by
  refine ⟨?_, ?_, ?_, ?_, ?_, ?_, ?_, ?_, by simp [Store.summarize],
    by simp [Store.summarize], by simp [Store.summarize],
    by simp [displayedSamples, Store.summarize], ?_⟩
  all_goals try simp [mainRun, mainCore, hok, hsu, summaryResult]
  intro s
  unfold displayedSamples
  split
  · simp
  · simp [List.length_take]

/-- Environment for the C2 witness: summary mode over an empty store. -/
def menvC2 : MainEnv :=
  { initResult := InitResult.ok,
    config := { start_page := 1, end_page := some 3, output_folder := "data" },
    store := Store.mk [], userInput := none,
    fetch := fun _ => FetchResult.cards [], interrupt := fun _ => false,
    autoFuel := 5 }

/-- Arguments for the C2 witness: the summary flag. -/
def argsC2 : Args :=
  { start := none, endPage := none, resume := false, summary := true,
    verbose := false }

/-- Witness for C2: a summary invocation over the empty store fetches
nothing and exits 0. -/
theorem summary_mode_spec_witness :
    (mainRun menvC2 argsC2).fetches = 0 ∧ (mainRun menvC2 argsC2).exit = 0 ∧
    (mainRun menvC2 argsC2).scrapeStarted = false :=
  ⟨(summary_mode_spec menvC2 argsC2 rfl rfl).2.1,
   (summary_mode_spec menvC2 argsC2 rfl rfl).2.2.2.2.2.2.1,
   (summary_mode_spec menvC2 argsC2 rfl rfl).2.2.2.1⟩

/-- C3: exit-code policy: `main` returning normally means exit 0 and a
re-raised exception means exit 1; a user-cancelled scrape exits 0 after
printing the resume notice; a fatally failed scrape exits 1. -/
theorem exit_code_policy (menv : MainEnv) (args : Args) :
    ((mainRun menv args).outcome = MainOutcome.finished → (mainRun menv args).exit = 0) ∧
    ((mainRun menv args).outcome = MainOutcome.raised → (mainRun menv args).exit = 1) ∧
    (∀ la, (mainRun menv args).loopRes = some la → la.state = RunState.Cancelled →
      (mainRun menv args).exit = 0 ∧ (mainRun menv args).outcome = MainOutcome.finished ∧
      resumeNoticeLine ∈ (mainRun menv args).output) ∧
    (∀ la, (mainRun menv args).loopRes = some la → la.state = RunState.Failed →
      (mainRun menv args).exit = 1 ∧ (mainRun menv args).outcome = MainOutcome.raised) := by
  rcases mainCore_cases menv args.resume args.summary args.start args.endPage with
    ⟨msg, hinit, hm⟩ | ⟨msg, hinit, hm⟩ | ⟨hsu, hm⟩ | ⟨hsu, hcf, hm⟩ | ⟨hsu, hcf, hm⟩
  · simp [mainRun, hm, fnfResult]
  · simp [mainRun, hm, errResult]
  · simp [mainRun, hm, summaryResult]
  · simp only [mainRun, hm]
    by_cases hF :
        (runLa menv args.resume args.start args.endPage).state = RunState.Failed
    · refine ⟨?_, ?_, ?_, ?_⟩
      · intro hfin
        simp [runResult, hF] at hfin
      · intro _
        simp [runResult, hF]
      · intro la hla hst
        simp only [runResult, Option.some.injEq] at hla
        rw [← hla, hF] at hst
        cases hst
      · intro la hla hst
        simp [runResult, hF]
    · refine ⟨?_, ?_, ?_, ?_⟩
      · intro _
        simp [runResult, hF]
      · intro hray
        simp [runResult, hF] at hray
      · intro la hla hst
        simp only [runResult, Option.some.injEq] at hla
        subst hla
        refine ⟨by simp [runResult, hF], by simp [runResult, hF], ?_⟩
        simp [runResult, runOutput, hst]
      · intro la hla hst
        simp only [runResult, Option.some.injEq] at hla
        subst hla
        exact absurd hst hF
  · simp [mainRun, hm, cancelResult]

/-- Environment for the C3 witness: the user confirms and then interrupts
before page 1 is processed. -/
def menvC3 : MainEnv :=
  { initResult := InitResult.ok,
    config := { start_page := 1, end_page := some 2, output_folder := "data" },
    store := Store.mk [], userInput := some "y",
    fetch := fun _ => FetchResult.cards [], interrupt := fun _ => true,
    autoFuel := 5 }

/-- Arguments for the C3 witness: a plain scraping invocation. -/
def argsC3 : Args :=
  { start := none, endPage := none, resume := false, summary := false,
    verbose := false }

/-- Witness for C3: the interrupted run exits 0, ends normally and prints
the resume notice. -/
theorem exit_code_policy_witness :
    (mainRun menvC3 argsC3).exit = 0 ∧
    (mainRun menvC3 argsC3).outcome = MainOutcome.finished ∧
    resumeNoticeLine ∈ (mainRun menvC3 argsC3).output :=
  (exit_code_policy menvC3 argsC3).2.2.1 (runLa menvC3 false none none)
    (by decide) (by decide)

/-- C10: without the resume and summary flags, scraping starts exactly
when the prompt answer normalises to y or yes (resuming skips the prompt
and always starts); without the resume flag the prompt is always shown;
and a declined or interrupted prompt leaves the program with no fetch, no
append and an untouched store. -/
theorem confirmation_gate (menv : MainEnv) (args : Args)
    (hok : menv.initResult = InitResult.ok) (hsu : args.summary = false) :
    ((mainRun menv args).scrapeStarted = true ↔
      (args.resume = true ∨ ∃ s, menv.userInput = some s ∧
        (normalizeResponse s = "y" ∨ normalizeResponse s = "yes"))) ∧
    (args.resume = true →
      (mainRun menv args).prompted = false ∧
      (mainRun menv args).scrapeStarted = true) ∧
    (args.resume = false → (mainRun menv args).prompted = true) ∧
    ((mainRun menv args).scrapeStarted = false →
      (mainRun menv args).fetches = 0 ∧ (mainRun menv args).appends = 0 ∧
      (mainRun menv args).loopRes = none ∧
      (mainRun menv args).finalStore = menv.store) := by
  by_cases hc : (args.resume || confirmedAnswer menv.userInput) = true
  · have hrhs : args.resume = true ∨ ∃ s, menv.userInput = some s ∧
        (normalizeResponse s = "y" ∨ normalizeResponse s = "yes") := by
      rcases Bool.or_eq_true_iff.mp hc with h | h
      · exact Or.inl h
      · exact Or.inr ((confirmedAnswer_iff menv.userInput).mp h)
    refine ⟨?_, ?_, ?_, ?_⟩
    · simp [mainRun, mainCore, hok, hsu, hc, runResult, hrhs]
    · intro hre
      simp [mainRun, mainCore, hok, hsu, hc, runResult, hre]
    · intro hre
      have hca : confirmedAnswer menv.userInput = true := by
        rw [hre] at hc
        simpa using hc
      simp [mainRun, mainCore, hok, hsu, hca, hre, runResult]
    · intro hstart
      simp [mainRun, mainCore, hok, hsu, hc, runResult] at hstart
  · have hc' : (args.resume || confirmedAnswer menv.userInput) = false := by
      simpa using hc
    have hre : args.resume = false := by
      rcases Bool.or_eq_false_iff.mp hc' with ⟨h, _⟩
      exact h
    have hca : confirmedAnswer menv.userInput = false := by
      rcases Bool.or_eq_false_iff.mp hc' with ⟨_, h⟩
      exact h
    have hrhs : ¬ (args.resume = true ∨ ∃ s, menv.userInput = some s ∧
        (normalizeResponse s = "y" ∨ normalizeResponse s = "yes")) := by
      rintro (h | h)
      · rw [hre] at h; cases h
      · have := (confirmedAnswer_iff menv.userInput).mpr h
        rw [hca] at this; cases this
    refine ⟨?_, ?_, ?_, ?_⟩
    · simp [mainRun, mainCore, hok, hsu, hc', cancelResult, hrhs]
    · intro h
      rw [hre] at h; cases h
    · intro _
      simp [mainRun, mainCore, hok, hsu, hc', cancelResult]
    · intro _
      simp [mainRun, mainCore, hok, hsu, hc', cancelResult]

/-- Environment for the C10 witness: the user declines the prompt. -/
def menvC10 : MainEnv :=
  { initResult := InitResult.ok,
    config := { start_page := 1, end_page := some 2, output_folder := "data" },
    store := Store.mk [], userInput := some "no",
    fetch := fun _ => FetchResult.cards [], interrupt := fun _ => false,
    autoFuel := 5 }

/-- Arguments for the C10 witness: a plain scraping invocation. -/
def argsC10 : Args :=
  { start := none, endPage := none, resume := false, summary := false,
    verbose := false }

/-- Witness for C10: a declined prompt leaves no fetch, no append and an
untouched store. -/
theorem confirmation_gate_witness :
    (mainRun menvC10 argsC10).fetches = 0 ∧
    (mainRun menvC10 argsC10).appends = 0 ∧
    (mainRun menvC10 argsC10).loopRes = none ∧
    (mainRun menvC10 argsC10).finalStore = menvC10.store :=
  (confirmation_gate menvC10 argsC10 rfl rfl).2.2.2 (by decide)

/-- C7: whenever scraping starts, the browser session is the first
resource event and its release the last, on every exit path; and every
page whose append event was emitted — in particular all pages persisted
before a cancellation — is present in the final store. -/
theorem session_cleanup_preserves_work (menv : MainEnv) (args : Args) :
    ((mainRun menv args).scrapeStarted = true →
      ((mainRun menv args).trace).head? = some Event.acquire ∧
      ((mainRun menv args).trace).getLast? = some Event.release) ∧
    (∀ p q, Event.append p q ∈ (mainRun menv args).trace →
      (p, q) ∈ ((mainRun menv args).finalStore).pages) := by
  rcases mainCore_cases menv args.resume args.summary args.start args.endPage with
    ⟨msg, hinit, hm⟩ | ⟨msg, hinit, hm⟩ | ⟨hsu, hm⟩ | ⟨hsu, hcf, hm⟩ | ⟨hsu, hcf, hm⟩
  · simp [mainRun, hm, fnfResult]
  · simp [mainRun, hm, errResult]
  · simp [mainRun, hm, summaryResult]
  · constructor
    · intro _
      have htr : (mainRun menv args).trace =
          Event.acquire ::
            ((runLa menv args.resume args.start args.endPage).events
              ++ [Event.release]) := by
        simp [mainRun, hm, runResult, List.concat_eq_append]
      constructor
      · rw [htr]
        rfl
      · rw [htr, ← List.cons_append]
        exact List.getLast?_concat _
    · intro p q hp
      have htr : (mainRun menv args).trace =
          Event.acquire ::
            ((runLa menv args.resume args.start args.endPage).events
              ++ [Event.release]) := by
        simp [mainRun, hm, runResult, List.concat_eq_append]
      rw [htr] at hp
      have hp' : Event.append p q ∈
          (runLa menv args.resume args.start args.endPage).events := by
        rcases List.mem_cons.mp hp with h | h
        · cases h
        rcases List.mem_append.mp h with h | h
        · exact h
        · rw [List.mem_singleton] at h
          cases h
      have hfs : (mainRun menv args).finalStore =
          (runLa menv args.resume args.start args.endPage).store := by
        simp [mainRun, hm, runResult]
      rw [hfs]
      unfold runLa at hp' ⊢
      refine loop_appends _ _ _ _ _ _ ?_ p q hp'
      intro p' q' hp''
      simp [initAcc] at hp''
  · simp [mainRun, hm, cancelResult]

/-- Environment for the C7 witness: one page of one card, then
end-of-data; the user resumes so no prompt is shown. -/
def menvC7 : MainEnv :=
  { initResult := InitResult.ok,
    config := { start_page := 1, end_page := none, output_folder := "data" },
    store := Store.mk [], userInput := none,
    fetch := fun n =>
      if n = 1 then FetchResult.cards [{ name := "a", tier := "1", series := "S" }]
      else FetchResult.cards [],
    interrupt := fun _ => false,
    autoFuel := 5 }

/-- Arguments for the C7 witness: a resumed scraping invocation. -/
def argsC7 : Args :=
  { start := none, endPage := none, resume := true, summary := false,
    verbose := false }

/-- Witness for C7: the started run acquires the session first and
releases it last. -/
theorem session_cleanup_preserves_work_witness :
    ((mainRun menvC7 argsC7).trace).head? = some Event.acquire ∧
    ((mainRun menvC7 argsC7).trace).getLast? = some Event.release :=
  (session_cleanup_preserves_work menvC7 argsC7).1 (by decide)
